import Mathlib

set_option maxRecDepth 100000

/-!
Verification of the interactive tool-generator wizard of the go-toolbox
repository (package `generator`: the wizard state machine in the
`GeneratorModel` file and the fixed templates in `templates.go`).

Go strings are modelled as lists of bytes (`GoStr`), because the wizard's
input handling is byte-based (`len(msg.String())`, `content[:len(content)-1]`
slice raw bytes).  The filesystem touched by `generateTool` is modelled as an
explicit association of paths (lists of path segments, as produced by
`filepath.Join`) to file contents, plus the set of existing directories.
`os.MkdirAll` is idempotent on directories and fails when a path component is
an existing regular file; `os.Create` truncates an existing regular file and
fails when the target is a directory or the parent directory is missing.
Template parsing of the fixed template literals always succeeds
(`text/template` accepts them, and accepts the empty template selected for
any tool type other than CLI and TUI), so rendering is modelled directly on
the parsed segment lists.
-/

/-- A Go string: a list of byte values (0 ≤ b < 256 for well-formed data). -/
abbrev GoStr := List Nat

/-- UTF-8 encoding of a Unicode code point, as byte values. -/
def utf8EncodeNat (c : Nat) : List Nat :=
  if c < 0x80 then [c]
  else if c < 0x800 then [0xC0 + c / 0x40, 0x80 + c % 0x40]
  else if c < 0x10000 then [0xE0 + c / 0x1000, 0x80 + c / 0x40 % 0x40, 0x80 + c % 0x40]
  else [0xF0 + c / 0x40000, 0x80 + c / 0x1000 % 0x40, 0x80 + c / 0x40 % 0x40, 0x80 + c % 0x40]

/-- The byte content of a Go string literal (UTF-8 encoding). -/
def str (s : String) : GoStr := s.data.flatMap (fun c => utf8EncodeNat c.toNat)

/-- ASCII whitespace bytes trimmed by `strings.TrimSpace` (the inputs the
wizard trims are ASCII; Unicode space code points above 0x7F are not
reachable through the wizard's single-byte input filter). -/
def isSpaceByte (b : Nat) : Bool := b == 32 || (9 ≤ b && b ≤ 13)

/-- `strings.TrimSpace` on byte strings. -/
def trimSpace (s : GoStr) : GoStr :=
  ((s.dropWhile isSpaceByte).reverse.dropWhile isSpaceByte).reverse

/-- `strings.ToLower` restricted to ASCII bytes (its arguments here are
"CLI", "TUI", "Unknown"). -/
def toLowerAscii (s : GoStr) : GoStr :=
  s.map (fun b => if 65 ≤ b && b ≤ 90 then b + 32 else b)

/-- Byte-at-a-time UTF-8 validity automaton: `k` is the number of
continuation bytes still expected, `lo`/`hi` the admissible range for the
next one (the first continuation of a 3- or 4-byte sequence is
range-restricted to exclude overlong encodings, surrogates and code points
above U+10FFFF). -/
def isValidUtf8Core : Nat → Nat → Nat → List Nat → Bool
  | k, _, _, [] => k == 0
  | k, lo, hi, b :: rest =>
    if k == 0 then
      if b ≤ 0x7F then isValidUtf8Core 0 0 0 rest
      else if 0xC2 ≤ b && b ≤ 0xDF then isValidUtf8Core 1 0x80 0xBF rest
      else if b == 0xE0 then isValidUtf8Core 2 0xA0 0xBF rest
      else if (0xE1 ≤ b && b ≤ 0xEC) || b == 0xEE || b == 0xEF then
        isValidUtf8Core 2 0x80 0xBF rest
      else if b == 0xED then isValidUtf8Core 2 0x80 0x9F rest
      else if b == 0xF0 then isValidUtf8Core 3 0x90 0xBF rest
      else if 0xF1 ≤ b && b ≤ 0xF3 then isValidUtf8Core 3 0x80 0xBF rest
      else if b == 0xF4 then isValidUtf8Core 3 0x80 0x8F rest
      else false
    else
      (lo ≤ b && b ≤ hi) && isValidUtf8Core (k - 1) 0x80 0xBF rest

/-- Well-formedness of a byte string as UTF-8 text (standard validity:
no overlong encodings, no surrogates, code points ≤ U+10FFFF). -/
def isValidUtf8 (s : List Nat) : Bool := isValidUtf8Core 0 0 0 s

/-- `type ToolType int` from the generator source. -/
structure ToolType where
  val : Int
deriving DecidableEq

/-- `CLI ToolType = iota` (0). -/
def CLI : ToolType := ⟨0⟩

/-- `TUI` (1).  The package test `TestToolTypeString` also references a
constant `Web`, which the generator source does not define. -/
def TUI : ToolType := ⟨1⟩

/-- `func (t ToolType) String() string`. -/
def ToolType.String (t : ToolType) : GoStr :=
  if t = CLI then str "CLI"
  else if t = TUI then str "TUI"
  else str "Unknown"

/-- `func isValidToolName(name string) bool`: non-empty, and every character
in `[a-z0-9-]`.  The Go loop ranges over runes; on the byte model this is
equivalent, because every byte of a multi-byte rune is ≥ 0x80 and hence
outside all three accepted ranges, exactly as the rune itself is. -/
def isValidToolName (name : GoStr) : Bool :=
  if name = [] then false
  else name.all (fun c => !((c < 97 || c > 122) && (c < 48 || c > 57) && c != 45))

/-- One piece of a parsed `text/template`: literal text or one of the three
actions that occur in the fixed templates (`{{.ToolName}}`, `{{.ToolDesc}}`,
`{{.PackageName}}`). -/
inductive Seg where
  | lit (s : GoStr)
  | toolName
  | toolDesc
  | packageName
deriving DecidableEq

/-- `t.Execute` for one segment, with the data struct built in
`generateMainFile`: `PackageName` is `strings.ReplaceAll(toolName, "-", "")`. -/
def renderSeg (name desc : GoStr) : Seg → GoStr
  | Seg.lit s => s
  | Seg.toolName => name
  | Seg.toolDesc => desc
  | Seg.packageName => name.filter (fun b => b != 45)

/-- Full rendering of a parsed template. -/
def renderSegs (name desc : GoStr) (segs : List Seg) : GoStr :=
  (segs.map (renderSeg name desc)).flatten

/-- A filesystem path, as the list of segments joined by `filepath.Join`. -/
abbrev FPath := List GoStr

/-- The filesystem state touched by the scaffolder: regular files with their
contents, and the set of existing directories. -/
structure FS where
  files : List (FPath × GoStr)
  dirs : List FPath
deriving DecidableEq

/-- All non-empty prefixes of a path (the directories `os.MkdirAll` walks). -/
def pathPrefixes (p : FPath) : List FPath :=
  (List.range p.length).map (fun i => p.take (i + 1))

/-- `os.MkdirAll(p, 0750)`: succeeds (idempotently) creating every prefix as
a directory, fails when some path component already exists as a regular
file. -/
def mkdirAll (p : FPath) (fs : FS) : Except GoStr FS :=
  if (pathPrefixes p).any (fun q => fs.files.any (fun e => e.1 == q)) then
    Except.error (str "not a directory")
  else
    Except.ok { fs with dirs := fs.dirs ++ (pathPrefixes p).filter (fun q => !fs.dirs.contains q) }

/-- Replace the binding of `p` (or append it) in a file listing. -/
def setFile (p : FPath) (c : GoStr) : List (FPath × GoStr) → List (FPath × GoStr)
  | [] => [(p, c)]
  | (q, d) :: rest => if q = p then (p, c) :: rest else (q, d) :: setFile p c rest

/-- Look up the content of the file at `p`. -/
def getFile (p : FPath) (files : List (FPath × GoStr)) : Option GoStr :=
  (files.find? (fun e => e.1 == p)).map Prod.snd

/-- `os.Create` followed by `t.Execute(file, data)`: fails when the target is
an existing directory or the parent directory does not exist; otherwise
truncates any existing regular file at the path and writes the content. -/
def createAndWrite (p : FPath) (content : GoStr) (fs : FS) : Except GoStr FS :=
  if fs.dirs.contains p then Except.error (str "is a directory")
  else if !fs.dirs.contains p.dropLast then Except.error (str "no such file or directory")
  else Except.ok { fs with files := setFile p content fs.files }

/-- The parsed `cliTemplate` literal from `templates.go`, split at its
template actions. -/
def cliTemplateSegs : List Seg :=
  [Seg.lit (str "// Package main provides "),
   Seg.toolDesc,
   Seg.lit (str "\npackage main\n\nimport (\n\t\"flag\"\n\t\"fmt\"\n\t\"os\"\n\n\t\"github.com/nate3d/go-toolbox/internal/config\"\n\t\"github.com/nate3d/go-toolbox/internal/logger\"\n)\n\nconst appName = \""),
   Seg.toolName,
   Seg.lit (str "\"\n\nfunc main() \x7b\n\t// Command line flags\n\tvar (\n\t\tversion = flag.Bool(\"version\", false, \"Show version information\")\n\t\thelp    = flag.Bool(\"help\", false, \"Show help information\")\n\t\tverbose = flag.Bool(\"verbose\", false, \"Enable verbose logging\")\n\t)\n\tflag.Parse()\n\n\tif *help \x7b\n\t\tshowHelp()\n\t\treturn\n\t\x7d\n\n\tif *version \x7b\n\t\tfmt.Printf(\"%s version 1.0.0\\n\", appName)\n\t\treturn\n\t\x7d\n\n\t// Initialize configuration\n\tif err := config.Init(appName); err != nil \x7b\n\t\tfmt.Fprintf(os.Stderr, \"Error initializing config: %v\\n\", err)\n\t\tos.Exit(1)\n\t\x7d\n\n\t// Initialize logger\n\tlogLevel := \"info\"\n\tif *verbose \x7b\n\t\tlogLevel = \"debug\"\n\t\x7d\n\n\tlogConfig := logger.Config\x7b\n\t\tLevel:      logger.LogLevel(logLevel),\n\t\tOutput:     config.GetString(\"log_file\"),\n\t\tFormat:     \"text\",\n\t\tWithCaller: false,\n\t\tWithTime:   true,\n\t\x7d\n\tif err := logger.Init(logConfig); err != nil \x7b\n\t\tfmt.Fprintf(os.Stderr, \"Error initializing logger: %v\\n\", err)\n\t\tos.Exit(1)\n\t\x7d\n\n\tlogger.Info(\"Starting "),
   Seg.toolName,
   Seg.lit (str "\")\n\n\t// TODO: Implement your CLI tool logic here\n\tfmt.Printf(\""),
   Seg.toolDesc,
   Seg.lit (str "\\n\")\n\tfmt.Printf(\"This is a generated CLI tool template.\\n\")\n\tfmt.Printf(\"Implement your functionality in the main() function.\\n\")\n\n\tlogger.Info(\""),
   Seg.toolName,
   Seg.lit (str " completed successfully\")\n\x7d\n\nfunc showHelp() \x7b\n\tfmt.Printf(\""),
   Seg.toolName,
   Seg.lit (str " - "),
   Seg.toolDesc,
   Seg.lit (str "\\n\\n\")\n\tfmt.Printf(\"Usage: %s [options]\\n\\n\", appName)\n\tfmt.Printf(\"Options:\\n\")\n\tflag.PrintDefaults()\n\tfmt.Printf(\"\\nGenerated with Go Toolbox Generator\\n\")\n\x7d\n")]

/-- The parsed `tuiTemplate` literal from `templates.go`, split at its
template actions. -/
def tuiTemplateSegs : List Seg :=
  [Seg.lit (str "// Package main provides "),
   Seg.toolDesc,
   Seg.lit (str "\npackage main\n\nimport (\n\t\"fmt\"\n\t\"os\"\n\n\ttea \"github.com/charmbracelet/bubbletea\"\n\t\"github.com/charmbracelet/lipgloss\"\n\n\t\"github.com/nate3d/go-toolbox/internal/config\"\n\t\"github.com/nate3d/go-toolbox/internal/logger\"\n)\n\nconst appName = \""),
   Seg.toolName,
   Seg.lit (str "\"\n\n// Styles\nvar (\n\ttitleStyle = lipgloss.NewStyle().\n\t\tBold(true).\n\t\tForeground(lipgloss.Color(\"#FAFAFA\")).\n\t\tBackground(lipgloss.Color(\"#7D56F4\")).\n\t\tPadding(0, 1)\n\n\titemStyle = lipgloss.NewStyle().\n\t\tPaddingLeft(4)\n\n\tselectedItemStyle = lipgloss.NewStyle().\n\t\tPaddingLeft(2).\n\t\tForeground(lipgloss.Color(\"170\"))\n\n\thelpStyle = lipgloss.NewStyle().\n\t\tPaddingLeft(4).\n\t\tPaddingTop(1).\n\t\tForeground(lipgloss.Color(\"241\"))\n\n\tquitTextStyle = lipgloss.NewStyle().\n\t\tMargin(1, 0, 2, 4)\n)\n\n// Model represents the application state\ntype model struct \x7b\n\tchoices  []string\n\tcursor   int\n\tselected map[int]struct\x7b\x7d\n\tquitting bool\n\x7d\n\n// initialModel creates the initial model\nfunc initialModel() model \x7b\n\treturn model\x7b\n\t\tchoices: []string\x7b\n\t\t\t\"Option 1\",\n\t\t\t\"Option 2\",\n\t\t\t\"Option 3\",\n\t\t\t\"Exit\",\n\t\t\x7d,\n\t\tselected: make(map[int]struct\x7b\x7d),\n\t\x7d\n\x7d\n\n// Init implements tea.Model\nfunc (m model) Init() tea.Cmd \x7b\n\treturn nil\n\x7d\n\n// Update implements tea.Model\nfunc (m model) Update(msg tea.Msg) (tea.Model, tea.Cmd) \x7b\n\tswitch msg := msg.(type) \x7b\n\tcase tea.KeyMsg:\n\t\tswitch msg.String() \x7b\n\t\tcase \"ctrl+c\", \"q\":\n\t\t\tm.quitting = true\n\t\t\treturn m, tea.Quit\n\n\t\tcase \"up\", \"k\":\n\t\t\tif m.cursor > 0 \x7b\n\t\t\t\tm.cursor--\n\t\t\t\x7d\n\n\t\tcase \"down\", \"j\":\n\t\t\tif m.cursor < len(m.choices)-1 \x7b\n\t\t\t\tm.cursor++\n\t\t\t\x7d\n\n\t\tcase \"enter\", \" \":\n\t\t\tif m.cursor == len(m.choices)-1 \x7b // Exit option\n\t\t\t\tm.quitting = true\n\t\t\t\treturn m, tea.Quit\n\t\t\t\x7d\n\n\t\t\t// TODO: Handle menu selection here\n\t\t\t_, ok := m.selected[m.cursor]\n\t\t\tif ok \x7b\n\t\t\t\tdelete(m.selected, m.cursor)\n\t\t\t\x7d else \x7b\n\t\t\t\tm.selected[m.cursor] = struct\x7b\x7d\x7b\x7d\n\t\t\t\x7d\n\t\t\x7d\n\t\x7d\n\n\treturn m, nil\n\x7d\n\n// View implements tea.Model\nfunc (m model) View() string \x7b\n\tif m.quitting \x7b\n\t\treturn quitTextStyle.Render(\"Thanks for using "),
   Seg.toolName,
   Seg.lit (str "!\")\n\t\x7d\n\n\ts := titleStyle.Render(\""),
   Seg.toolName,
   Seg.lit (str "\") + \"\\n\\n\"\n\ts += itemStyle.Render(\""),
   Seg.toolDesc,
   Seg.lit (str "\") + \"\\n\\n\"\n\n\tfor i, choice := range m.choices \x7b\n\t\tcursor := \" \"\n\t\tif m.cursor == i \x7b\n\t\t\tcursor = \">\"\n\t\t\x7d\n\n\t\tchecked := \" \"\n\t\tif _, ok := m.selected[i]; ok \x7b\n\t\t\tchecked = \"x\"\n\t\t\x7d\n\n\t\tif m.cursor == i \x7b\n\t\t\ts += selectedItemStyle.Render(fmt.Sprintf(\"%s [%s] %s\", cursor, checked, choice))\n\t\t\x7d else \x7b\n\t\t\ts += itemStyle.Render(fmt.Sprintf(\"%s [%s] %s\", cursor, checked, choice))\n\t\t\x7d\n\t\ts += \"\\n\"\n\t\x7d\n\n\ts += helpStyle.Render(\"\\nPress q to quit, \u201a\u00dc\u00eb/\u201a\u00dc\u00ec or j/k to navigate, enter to select.\")\n\n\treturn s\n\x7d\n\nfunc main() \x7b\n\t// Initialize configuration\n\tif err := config.Init(appName); err != nil \x7b\n\t\tfmt.Fprintf(os.Stderr, \"Error initializing config: %v\\n\", err)\n\t\tos.Exit(1)\n\t\x7d\n\n\t// Initialize logger\n\tlogConfig := logger.Config\x7b\n\t\tLevel:      logger.LogLevel(config.GetString(\"log_level\")),\n\t\tOutput:     config.GetString(\"log_file\"),\n\t\tFormat:     \"text\",\n\t\tWithCaller: false,\n\t\tWithTime:   true,\n\t\x7d\n\tif err := logger.Init(logConfig); err != nil \x7b\n\t\tfmt.Fprintf(os.Stderr, \"Error initializing logger: %v\\n\", err)\n\t\tos.Exit(1)\n\t\x7d\n\n\tlogger.Info(\"Starting "),
   Seg.toolName,
   Seg.lit (str " TUI\")\n\n\t// Start the TUI\n\tp := tea.NewProgram(initialModel(), tea.WithAltScreen())\n\tif _, err := p.Run(); err != nil \x7b\n\t\tlogger.Error(\"TUI application failed\", \"error\", err)\n\t\tos.Exit(1)\n\t\x7d\n\x7d\n")]


/-- The template chosen by the `switch m.toolType` in `generateMainFile`:
`cliTemplate` for CLI, `tuiTemplate` for TUI, and the empty template string
for any other value (the switch has no default, so `tmpl` stays `""`).
`webTemplate` from `templates.go` is never selected. -/
def templateFor (t : ToolType) : List Seg :=
  if t = CLI then cliTemplateSegs
  else if t = TUI then tuiTemplateSegs
  else []

/-- `type GeneratorModel struct` (the `strings.Builder` field `inputText` is
its accumulated byte string). -/
structure GeneratorModel where
  step : Int
  toolType : ToolType
  toolName : GoStr
  toolDesc : GoStr
  choices : List GoStr
  cursor : Int
  quitting : Bool
  error : GoStr
  success : GoStr
  inputMode : Bool
  inputText : GoStr
  inputPrompt : GoStr
deriving DecidableEq

/-- `func NewGeneratorModel() *GeneratorModel` (unset fields take their Go
zero values). -/
def NewGeneratorModel : GeneratorModel :=
  { step := 0
    toolType := CLI
    toolName := []
    toolDesc := []
    choices := [str "CLI Tool", str "TUI Tool", str "Back to Main Menu"]
    cursor := 0
    quitting := false
    error := []
    success := []
    inputMode := false
    inputText := []
    inputPrompt := [] }

/-- The commands a wizard update can return: `nil` or `tea.Quit`. -/
inductive Cmd where
  | none
  | quit
deriving DecidableEq

/-- A key message, by its `msg.String()` byte content. -/
abbrev Msg := GoStr

/-- `func (m *GeneratorModel) generateMainFile(toolDir string) error`:
parse the selected template (always succeeds for the fixed literals and for
the empty default), `os.Create` the `main.go` file in `toolDir`, and execute
the template into it. -/
def generateMainFile (m : GeneratorModel) (toolDir : FPath) (fs : FS) : Except GoStr FS :=
  createAndWrite (toolDir ++ [str "main.go"])
    (renderSegs m.toolName m.toolDesc (templateFor m.toolType)) fs

/-- `func (m *GeneratorModel) generateTool() error`, threading the filesystem
explicitly.  Returns the error (if any) together with the filesystem as
mutated up to the point of failure.  `generateTUIFiles` and `updateMakefile`
always return `nil` and touch nothing. -/
def generateTool (m : GeneratorModel) (fs : FS) : Option GoStr × FS :=
  if !isValidToolName m.toolName then
    (some (str "invalid tool name: use lowercase letters, numbers, and hyphens only"), fs)
  else
    let toolDir : FPath := [str "cmd", toLowerAscii (ToolType.String m.toolType), m.toolName]
    match mkdirAll toolDir fs with
    | Except.error e => (some (str "failed to create directory: " ++ e), fs)
    | Except.ok fs1 =>
      match generateMainFile m toolDir fs1 with
      | Except.error e => (some (str "failed to generate main.go: " ++ e), fs1)
      | Except.ok fs2 => (none, fs2)

/-- `func (m *GeneratorModel) handleInputMode(msg tea.KeyMsg)`, threading the
filesystem through the `generateTool` call made on the description-confirm
path. -/
def handleInputMode (m : GeneratorModel) (msg : Msg) (fs : FS) :
    GeneratorModel × Cmd × FS :=
  if msg = str "ctrl+c" then
    ({ m with quitting := true }, Cmd.quit, fs)
  else if msg = str "esc" then
    ({ m with inputMode := false, inputText := [], step := m.step - 1 }, Cmd.none, fs)
  else if msg = str "enter" then
    let input := trimSpace m.inputText
    if input = [] then
      ({ m with error := str "Input cannot be empty" }, Cmd.none, fs)
    else if m.step = 1 then
      ({ m with toolName := input, step := m.step + 1, inputMode := true,
                inputText := [], inputPrompt := str "Enter tool description:",
                error := [] }, Cmd.none, fs)
    else if m.step = 2 then
      let m1 := { m with toolDesc := input, inputMode := false, error := [] }
      match generateTool m1 fs with
      | (some e, fs1) =>
        ({ m1 with error := str "Error generating tool: " ++ e,
                   step := m1.step + 1 }, Cmd.none, fs1)
      | (none, fs1) =>
        ({ m1 with success := str "Successfully generated " ++
                     ToolType.String m1.toolType ++ str " tool: " ++ m1.toolName,
                   step := m1.step + 1 }, Cmd.none, fs1)
    else
      (m, Cmd.none, fs)
  else if msg = str "backspace" then
    if m.inputText.length > 0 then
      ({ m with inputText := m.inputText.take (m.inputText.length - 1) }, Cmd.none, fs)
    else
      (m, Cmd.none, fs)
  else if msg.length = 1 then
    ({ m with inputText := m.inputText ++ msg }, Cmd.none, fs)
  else
    (m, Cmd.none, fs)

/-- `func (m *GeneratorModel) handleSelection()`. -/
def handleSelection (m : GeneratorModel) (fs : FS) : GeneratorModel × Cmd × FS :=
  if m.step = 0 then
    if m.cursor = 2 then
      (m, Cmd.quit, fs)
    else
      let m1 :=
        if m.cursor = 0 then { m with toolType := CLI }
        else if m.cursor = 1 then { m with toolType := TUI }
        else m
      ({ m1 with step := m1.step + 1, inputMode := true,
                 inputPrompt := str "Enter tool name (lowercase, no spaces):",
                 error := [] }, Cmd.none, fs)
  else
    (m, Cmd.none, fs)

/-- `func (m *GeneratorModel) handleMenuMode(msg tea.KeyMsg)`. -/
def handleMenuMode (m : GeneratorModel) (msg : Msg) (fs : FS) :
    GeneratorModel × Cmd × FS :=
  if msg = str "ctrl+c" then
    ({ m with quitting := true }, Cmd.quit, fs)
  else if msg = str "up" ∨ msg = str "k" then
    (if m.cursor > 0 then { m with cursor := m.cursor - 1 } else m, Cmd.none, fs)
  else if msg = str "down" ∨ msg = str "j" then
    (if m.cursor < (m.choices.length : Int) - 1 then { m with cursor := m.cursor + 1 }
     else m, Cmd.none, fs)
  else if msg = str "enter" ∨ msg = str " " then
    handleSelection m fs
  else if msg = str "esc" ∨ msg = str "b" then
    if m.step = 0 then
      (m, Cmd.quit, fs)
    else
      ({ m with step := 0, cursor := 0, error := [], success := [],
                inputMode := false, inputText := [] }, Cmd.none, fs)
  else if msg = str "r" then
    if m.step = 3 then
      ({ m with step := 0, cursor := 0, error := [], success := [],
                toolName := [], toolDesc := [] }, Cmd.none, fs)
    else
      (m, Cmd.none, fs)
  else
    (m, Cmd.none, fs)

/-- `func (m *GeneratorModel) Update(msg tea.Msg)` for key messages (every
other message type returns the model unchanged with a nil command). -/
def Update (m : GeneratorModel) (msg : Msg) (fs : FS) : GeneratorModel × Cmd × FS :=
  if m.inputMode then handleInputMode m msg fs else handleMenuMode m msg fs

/-- The empty filesystem. -/
def emptyFS : FS := { files := [], dirs := [] }

/-- C1: the claim says a pre-existing file at an artifact's destination path
makes generation fail with a NameCollision error, leaving the file's bytes
untouched.  The code has no such check: `os.Create` truncates the existing
`cmd/cli/pinger/main.go`, generation reports success, and the old content
"OLD" is replaced by the freshly rendered template output. -/
theorem c1_generateTool_overwrites_existing_file :
    (generateTool
        { NewGeneratorModel with
            toolType := CLI, toolName := str "pinger", toolDesc := str "Pings a host" }
        { files := [([str "cmd", str "cli", str "pinger", str "main.go"], str "OLD")]
          dirs := [[str "cmd"], [str "cmd", str "cli"], [str "cmd", str "cli", str "pinger"]] }).1
      = none ∧
    getFile [str "cmd", str "cli", str "pinger", str "main.go"]
      (generateTool
        { NewGeneratorModel with
            toolType := CLI, toolName := str "pinger", toolDesc := str "Pings a host" }
        { files := [([str "cmd", str "cli", str "pinger", str "main.go"], str "OLD")]
          dirs := [[str "cmd"], [str "cmd", str "cli"], [str "cmd", str "cli", str "pinger"]] }).2.files
      = some (renderSegs (str "pinger") (str "Pings a host") cliTemplateSegs) ∧
    renderSegs (str "pinger") (str "Pings a host") cliTemplateSegs ≠ str "OLD" := by
  refine ⟨rfl, rfl, by decide⟩

/-- C3: the claim says generation covers tool types CLI, TUI and
network-service, selecting among three templates and producing the
network-service artifact set.  The generator defines only CLI and TUI:
its choice list has no "Web Tool" entry (the package's own test
`TestNewGeneratorModel` expects one), and `generateMainFile` never selects
`webTemplate` — for every tool type the selected template is the CLI one,
the TUI one, or the empty default. -/
theorem c3_no_web_tool_type :
    NewGeneratorModel.choices = [str "CLI Tool", str "TUI Tool", str "Back to Main Menu"] ∧
    ∀ t : ToolType, templateFor t = cliTemplateSegs ∨ templateFor t = tuiTemplateSegs ∨
      templateFor t = [] := by
  refine ⟨rfl, ?_⟩
  intro t
  unfold templateFor
  by_cases h1 : t = CLI
  · left
    rw [if_pos h1]
  · by_cases h2 : t = TUI
    · right; left
      rw [if_neg h1, if_pos h2]
    · right; right
      rw [if_neg h1, if_neg h2]

/-- C2 counterexample: confirming the NameInput step with the buffer
"My Tool!" does not produce a ValidationError and does not keep the wizard on
NameInput — the wizard stores the invalid name, clears the error field, and
advances to the DescriptionInput step (step 2).  Only the absence of
filesystem writes holds. -/
theorem c2_invalid_name_confirm_advances :
    (Update { NewGeneratorModel with step := 1, inputMode := true, inputText := str "My Tool!" }
        (str "enter") emptyFS).1.step = 2 ∧
    (Update { NewGeneratorModel with step := 1, inputMode := true, inputText := str "My Tool!" }
        (str "enter") emptyFS).1.error = [] ∧
    (Update { NewGeneratorModel with step := 1, inputMode := true, inputText := str "My Tool!" }
        (str "enter") emptyFS).1.toolName = str "My Tool!" ∧
    isValidToolName (str "My Tool!") = false ∧
    (Update { NewGeneratorModel with step := 1, inputMode := true, inputText := str "My Tool!" }
        (str "enter") emptyFS).2.2 = emptyFS := by
  decide

/-- C4 counterexample: processing the confirm event at the DescriptionInput
step performs the filesystem mutation inside the update function itself —
the returned filesystem differs from the one passed in. -/
theorem c4_update_mutates_filesystem :
    (Update
        { NewGeneratorModel with
            step := 2, inputMode := true, toolType := CLI,
            toolName := str "pinger", inputText := str "Pings a host" }
        (str "enter") emptyFS).2.2 ≠ emptyFS := by
  decide

/-- C6 counterexample: on a buffer holding the two-byte UTF-8 character
U+00E9 (bytes 195, 169), a deletion event removes only the final byte: the
result is the lone byte 195, which is not the empty buffer whole-character
removal would produce, and is not well-formed UTF-8 text. -/
theorem c6_backspace_removes_byte_not_character :
    (handleInputMode
        { NewGeneratorModel with step := 1, inputMode := true, inputText := [195, 169] }
        (str "backspace") emptyFS).1.inputText = [195] ∧
    isValidUtf8 [195, 169] = true ∧
    isValidUtf8 [195] = false ∧
    ([195] : GoStr) ≠ [] := by
  decide

/-- C7: the claim (and the input prompt the program itself renders at step 1)
says cancelling from DescriptionInput returns to a functioning NameInput: typed
characters are appended and confirming advances.  The code decrements the step
but leaves `inputMode` false, so after the cancel a typed character is routed
to the menu handler and ignored, and confirming is a no-op: the wizard is
stuck showing a text prompt that no longer accepts text. -/
theorem c7_cancel_from_description_leaves_menu_mode :
    (Update
        { NewGeneratorModel with
            step := 2, inputMode := true, toolType := CLI,
            toolName := str "pinger", inputText := str "Pings" }
        (str "esc") emptyFS).1.step = 1 ∧
    (Update
        { NewGeneratorModel with
            step := 2, inputMode := true, toolType := CLI,
            toolName := str "pinger", inputText := str "Pings" }
        (str "esc") emptyFS).1.inputMode = false ∧
    Update
      (Update
        { NewGeneratorModel with
            step := 2, inputMode := true, toolType := CLI,
            toolName := str "pinger", inputText := str "Pings" }
        (str "esc") emptyFS).1
      (str "p") emptyFS
      = ((Update
            { NewGeneratorModel with
                step := 2, inputMode := true, toolType := CLI,
                toolName := str "pinger", inputText := str "Pings" }
            (str "esc") emptyFS).1, Cmd.none, emptyFS) ∧
    Update
      (Update
        { NewGeneratorModel with
            step := 2, inputMode := true, toolType := CLI,
            toolName := str "pinger", inputText := str "Pings" }
        (str "esc") emptyFS).1
      (str "enter") emptyFS
      = ((Update
            { NewGeneratorModel with
                step := 2, inputMode := true, toolType := CLI,
                toolName := str "pinger", inputText := str "Pings" }
            (str "esc") emptyFS).1, Cmd.none, emptyFS) := by
  refine ⟨by decide, by decide, by decide, by decide⟩

/-- C8 counterexample: after a successful TUI generation, the retry key resets
name and description but not the tool type — it stays `TUI`, not the initial
`CLI` of a fresh model, so the ToolSpec is not cleared entirely. -/
theorem c8_retry_keeps_tool_type :
    (Update
        { NewGeneratorModel with
            step := 3, toolType := TUI, toolName := str "x", toolDesc := str "y",
            success := str "done" }
        (str "r") emptyFS).1.toolType = TUI ∧
    NewGeneratorModel.toolType = CLI ∧
    TUI ≠ CLI := by
  decide

/-- C9 counterexample: at the terminal step, the back key does not exit the
wizard — the returned command is nil (not quit, which is what exiting to the
parent screen requires), and the wizard moves back to its own ToolTypeSelect
step. -/
theorem c9_back_at_completion_stays_in_wizard :
    (Update
        { NewGeneratorModel with
            step := 3, toolType := TUI, toolName := str "x", toolDesc := str "y",
            success := str "done" }
        (str "b") emptyFS).2.1 = Cmd.none ∧
    (Update
        { NewGeneratorModel with
            step := 3, toolType := TUI, toolName := str "x", toolDesc := str "y",
            success := str "done" }
        (str "b") emptyFS).1.step = 0 ∧
    Cmd.none ≠ Cmd.quit := by
  decide

/-- C10 counterexample: a two-character input event ("ab", two bytes) is not
appended to the buffer — the update drops it entirely and returns the model
unchanged. -/
theorem c10_multichar_event_dropped :
    Update { NewGeneratorModel with step := 1, inputMode := true, inputText := str "My" }
        (str "ab") emptyFS
      = ({ NewGeneratorModel with step := 1, inputMode := true, inputText := str "My" },
         Cmd.none, emptyFS) ∧
    (str "My" : GoStr) ≠ str "My" ++ str "ab" := by
  decide

/-- Menu-mode key handling never touches the filesystem. -/
theorem handleMenuMode_preserves_fs (m : GeneratorModel) (msg : Msg) (fs : FS) :
    (handleMenuMode m msg fs).2.2 = fs := by
  unfold handleMenuMode handleSelection
  by_cases h1 : msg = str "ctrl+c"
  · rw [if_pos h1]
  · rw [if_neg h1]
    by_cases h2 : msg = str "up" ∨ msg = str "k"
    · rw [if_pos h2]
    · rw [if_neg h2]
      by_cases h3 : msg = str "down" ∨ msg = str "j"
      · rw [if_pos h3]
      · rw [if_neg h3]
        by_cases h4 : msg = str "enter" ∨ msg = str " "
        · rw [if_pos h4]
          by_cases h5 : m.step = 0
          · rw [if_pos h5]
            by_cases h6 : m.cursor = 2
            · rw [if_pos h6]
            · rw [if_neg h6]
          · rw [if_neg h5]
        · rw [if_neg h4]
          by_cases h5 : msg = str "esc" ∨ msg = str "b"
          · rw [if_pos h5]
            by_cases h6 : m.step = 0
            · rw [if_pos h6]
            · rw [if_neg h6]
          · rw [if_neg h5]
            by_cases h6 : msg = str "r"
            · rw [if_pos h6]
              by_cases h7 : m.step = 3
              · rw [if_pos h7]
              · rw [if_neg h7]
            · rw [if_neg h6]

/-- A list of ASCII bytes is well-formed UTF-8. -/
theorem ascii_isValidUtf8 (s : GoStr) (h : ∀ b ∈ s, b ≤ 127) : isValidUtf8 s = true := by
  unfold isValidUtf8
  induction s with
  | nil => rfl
  | cons b t ih =>
    have hb : b ≤ 127 := h b (List.mem_cons_self b t)
    unfold isValidUtf8Core
    rw [if_pos (by decide), if_pos hb]
    exact ih (fun c hc => h c (List.mem_cons_of_mem b hc))

/-- C2 amended: confirming NameInput with any non-empty trimmed buffer —
pattern-valid or not — stores it as the tool name and advances to
DescriptionInput (step 2) with the error cleared and the filesystem
untouched; the slug pattern is checked only when generation runs at the
DescriptionInput confirm, where `generateTool` rejects an invalid name
before performing any filesystem write. -/
theorem c2_name_validation_deferred_to_generation :
    (∀ (m : GeneratorModel) (fs : FS), m.inputMode = true → m.step = 1 →
      ¬(trimSpace m.inputText = []) →
      Update m (str "enter") fs =
        ({ m with toolName := trimSpace m.inputText, step := 2, inputMode := true,
                  inputText := [], inputPrompt := str "Enter tool description:",
                  error := [] }, Cmd.none, fs)) ∧
    (∀ (m : GeneratorModel) (fs : FS), isValidToolName m.toolName = false →
      generateTool m fs =
        (some (str "invalid tool name: use lowercase letters, numbers, and hyphens only"), fs)) := by
  constructor
  · intro m fs h1 h2 h3
    unfold Update
    rw [h1, if_pos rfl]
    unfold handleInputMode
    rw [if_neg (by decide), if_neg (by decide), if_pos rfl]
    simp only [h2, h3, ite_false, ite_true]
    rfl
  · intro m fs h
    unfold generateTool
    rw [h]
    rfl

/-- C2 witness: the deferred-validation theorem applied to the "My Tool!"
scenario. -/
theorem c2_name_validation_deferred_to_generation_witness :
    Update { NewGeneratorModel with step := 1, inputMode := true, inputText := str "My Tool!" }
        (str "enter") emptyFS =
      ({ NewGeneratorModel with
            toolName := str "My Tool!", step := 2, inputMode := true,
            inputText := [], inputPrompt := str "Enter tool description:",
            error := [] }, Cmd.none, emptyFS) ∧
    generateTool { NewGeneratorModel with toolName := str "My Tool!" } emptyFS =
      (some (str "invalid tool name: use lowercase letters, numbers, and hyphens only"), emptyFS) :=
  ⟨c2_name_validation_deferred_to_generation.1
      { NewGeneratorModel with step := 1, inputMode := true, inputText := str "My Tool!" }
      emptyFS rfl rfl (by decide),
   c2_name_validation_deferred_to_generation.2
      { NewGeneratorModel with toolName := str "My Tool!" } emptyFS (by decide)⟩

/-- C4 amended: the wizard update leaves the filesystem untouched for every
event except the DescriptionInput confirm (input mode, "enter", step 2,
non-empty trimmed buffer), where the update function itself performs the
generation I/O in place; screen-switching and quitting are returned as
command values. -/
theorem c4_update_touches_fs_only_on_generation :
    (∀ (m : GeneratorModel) (msg : Msg) (fs : FS), m.inputMode = false →
      (Update m msg fs).2.2 = fs) ∧
    (∀ (m : GeneratorModel) (msg : Msg) (fs : FS), m.inputMode = true →
      ¬(msg = str "enter" ∧ m.step = 2 ∧ ¬(trimSpace m.inputText = [])) →
      (Update m msg fs).2.2 = fs) := by
  constructor
  · intro m msg fs h1
    unfold Update
    rw [h1, if_neg (by decide)]
    exact handleMenuMode_preserves_fs m msg fs
  · intro m msg fs h1 h2
    unfold Update
    rw [h1, if_pos rfl]
    unfold handleInputMode
    by_cases hc : msg = str "ctrl+c"
    · rw [if_pos hc]
    · rw [if_neg hc]
      by_cases he : msg = str "esc"
      · rw [if_pos he]
      · rw [if_neg he]
        by_cases hn : msg = str "enter"
        · rw [if_pos hn]
          by_cases ht : trimSpace m.inputText = []
          · simp only [ht, ite_true, eq_self_iff_true]
          · by_cases hs1 : m.step = 1
            · simp only [ht, hs1, ite_false, ite_true, eq_self_iff_true]
            · by_cases hs2 : m.step = 2
              · exact absurd ⟨hn, hs2, ht⟩ h2
              · simp only [ht, hs1, hs2, ite_false]
        · rw [if_neg hn]
          by_cases hb : msg = str "backspace"
          · rw [if_pos hb]
            by_cases hl : m.inputText.length > 0
            · rw [if_pos hl]
            · rw [if_neg hl]
          · rw [if_neg hb]
            by_cases hl : msg.length = 1
            · rw [if_pos hl]
            · rw [if_neg hl]

/-- C4 witness: the fs-preservation theorem applied to a menu event and to a
typing event. -/
theorem c4_update_touches_fs_only_on_generation_witness :
    (Update NewGeneratorModel (str "r") emptyFS).2.2 = emptyFS ∧
    (Update { NewGeneratorModel with step := 1, inputMode := true } (str "x") emptyFS).2.2
      = emptyFS :=
  ⟨c4_update_touches_fs_only_on_generation.1 NewGeneratorModel (str "r") emptyFS rfl,
   c4_update_touches_fs_only_on_generation.2
      { NewGeneratorModel with step := 1, inputMode := true } (str "x") emptyFS rfl
      (by decide)⟩

/-- C5: when generation fails at the DescriptionInput confirm, the wizard
moves to its terminal step 3 carrying the failure message in the error field
(the Error terminal state), retains the already-collected tool type, name and
the just-confirmed description, and returns a nil command — the failure is
absorbed by the update function, never escaping the UI loop or quitting the
program. -/
theorem c5_generation_failure_reaches_error_state (m : GeneratorModel) (fs : FS)
    (e : GoStr) (fs1 : FS)
    (h1 : m.inputMode = true) (h2 : m.step = 2) (h3 : ¬(trimSpace m.inputText = []))
    (h4 : generateTool
            { m with toolDesc := trimSpace m.inputText, inputMode := false, error := [] } fs
            = (some e, fs1)) :
    Update m (str "enter") fs =
      ({ m with toolDesc := trimSpace m.inputText, inputMode := false,
                error := str "Error generating tool: " ++ e, step := 3 }, Cmd.none, fs1) := by
  unfold Update
  rw [h1, if_pos rfl]
  unfold handleInputMode
  rw [if_neg (by decide), if_neg (by decide), if_pos rfl]
  simp only [h2, h3, if_false, ite_false]
  rw [if_neg (by decide : ¬((2 : Int) = 1)), if_pos trivial]
  rw [h2] at h4
  rw [h4]
  rfl

/-- C5 witness: the failure-absorption theorem applied to a description
confirm whose generation fails on an invalid (previously accepted) name. -/
theorem c5_generation_failure_reaches_error_state_witness :
    Update
      { NewGeneratorModel with
          step := 2, inputMode := true, toolName := str "My Tool", inputText := str "d" }
      (str "enter") emptyFS =
      ({ { NewGeneratorModel with
             step := 2, inputMode := true, toolName := str "My Tool", inputText := str "d" } with
           toolDesc := str "d", inputMode := false,
           error := str "Error generating tool: " ++
             str "invalid tool name: use lowercase letters, numbers, and hyphens only",
           step := 3 }, Cmd.none, emptyFS) :=
  c5_generation_failure_reaches_error_state
    { NewGeneratorModel with
        step := 2, inputMode := true, toolName := str "My Tool", inputText := str "d" }
    emptyFS
    (str "invalid tool name: use lowercase letters, numbers, and hyphens only")
    emptyFS rfl rfl (by decide) (by decide)

/-- C6 amended: a deletion event removes exactly the final byte of the
buffer; and because a one-byte event that is well-formed UTF-8 is necessarily
an ASCII character (the only events the input filter appends), buffers built
from such events are ASCII, where dropping the final byte drops exactly one
whole character and leaves well-formed text. -/
theorem c6_backspace_removes_final_byte :
    (∀ (m : GeneratorModel) (fs : FS), m.inputMode = true → ¬(m.inputText = []) →
      (Update m (str "backspace") fs).1.inputText = m.inputText.dropLast) ∧
    (∀ b : Nat, b < 256 → isValidUtf8 [b] = true → b ≤ 127) ∧
    (∀ s : GoStr, (∀ b ∈ s, b ≤ 127) → isValidUtf8 s.dropLast = true) := by
  refine ⟨?_, by decide, ?_⟩
  · intro m fs h1 h2
    unfold Update
    rw [h1, if_pos rfl]
    unfold handleInputMode
    rw [if_neg (by decide), if_neg (by decide), if_neg (by decide), if_pos rfl]
    rw [if_pos (List.length_pos.mpr h2)]
    rw [List.dropLast_eq_take]
  · intro s h
    rw [List.dropLast_eq_take]
    exact ascii_isValidUtf8 _ (fun b hb => h b (List.take_subset _ _ hb))

/-- C6 witness: the byte-deletion theorem applied to the buffer "ab", plus
the ASCII facts at byte 97 and the string "ab". -/
theorem c6_backspace_removes_final_byte_witness :
    (Update { NewGeneratorModel with step := 1, inputMode := true, inputText := str "ab" }
        (str "backspace") emptyFS).1.inputText = (str "ab").dropLast ∧
    (97 : Nat) ≤ 127 ∧
    isValidUtf8 (str "ab").dropLast = true :=
  ⟨c6_backspace_removes_final_byte.1
      { NewGeneratorModel with step := 1, inputMode := true, inputText := str "ab" }
      emptyFS rfl (by decide),
   c6_backspace_removes_final_byte.2.1 97 (by decide) (by decide),
   c6_backspace_removes_final_byte.2.2 (str "ab") (by decide)⟩

/-- C8 amended: from the terminal step (3), the retry key resets the step,
cursor, messages, name and description, but leaves the tool type (and the
input buffer) holding their previous values — the record update below touches
no other field, so `toolType` is carried over rather than cleared.  The stale
tool type is overwritten by the next type selection before it is used. -/
theorem c8_retry_resets_all_but_tool_type (m : GeneratorModel) (fs : FS)
    (h1 : m.inputMode = false) (h2 : m.step = 3) :
    Update m (str "r") fs =
      ({ m with step := 0, cursor := 0, error := [], success := [],
                toolName := [], toolDesc := [] }, Cmd.none, fs) := by
  unfold Update
  rw [h1, if_neg (by decide)]
  unfold handleMenuMode
  rw [if_neg (by decide), if_neg (by decide), if_neg (by decide), if_neg (by decide),
      if_neg (by decide), if_pos (by decide), if_pos h2, h1]

/-- C8 witness: the retry-reset theorem applied after a TUI generation. -/
theorem c8_retry_resets_all_but_tool_type_witness :
    Update
      { NewGeneratorModel with
          step := 3, toolType := TUI, toolName := str "x", toolDesc := str "y",
          success := str "done" }
      (str "r") emptyFS =
      ({ { NewGeneratorModel with
             step := 3, toolType := TUI, toolName := str "x", toolDesc := str "y",
             success := str "done" } with
           step := 0, cursor := 0, error := [], success := [],
           toolName := [], toolDesc := [] }, Cmd.none, emptyFS) :=
  c8_retry_resets_all_but_tool_type
    { NewGeneratorModel with
        step := 3, toolType := TUI, toolName := str "x", toolDesc := str "y",
        success := str "done" }
    emptyFS rfl rfl

/-- C9 amended: from the terminal step (3), the back key does not exit the
wizard — it returns the wizard to its own ToolTypeSelect step (step 0,
clearing cursor, messages and buffer but keeping the ToolSpec fields) with a
nil command; only the back key at step 0 exits (returns the quit command),
and quit (ctrl+c) is accepted from every state, input mode or menu mode. -/
theorem c9_back_returns_to_start_quit_everywhere :
    (∀ (m : GeneratorModel) (fs : FS), m.inputMode = false → m.step = 3 →
      Update m (str "b") fs =
        ({ m with step := 0, cursor := 0, error := [], success := [],
                  inputMode := false, inputText := [] }, Cmd.none, fs)) ∧
    (∀ (m : GeneratorModel) (fs : FS), m.inputMode = false → m.step = 0 →
      Update m (str "b") fs = (m, Cmd.quit, fs)) ∧
    (∀ (m : GeneratorModel) (fs : FS),
      Update m (str "ctrl+c") fs = ({ m with quitting := true }, Cmd.quit, fs)) := by
  refine ⟨?_, ?_, ?_⟩
  · intro m fs h1 h2
    unfold Update
    rw [h1, if_neg (by decide)]
    unfold handleMenuMode
    rw [if_neg (by decide), if_neg (by decide), if_neg (by decide), if_neg (by decide),
        if_pos (by decide)]
    rw [if_neg (show ¬(m.step = 0) by rw [h2]; decide)]
  · intro m fs h1 h2
    unfold Update
    rw [h1, if_neg (by decide)]
    unfold handleMenuMode
    rw [if_neg (by decide), if_neg (by decide), if_neg (by decide), if_neg (by decide),
        if_pos (by decide), if_pos h2]
  · intro m fs
    unfold Update
    by_cases hm : m.inputMode = true
    · rw [hm, if_pos rfl]
      unfold handleInputMode
      rw [if_pos rfl, hm]
    · rw [Bool.not_eq_true] at hm
      rw [hm, if_neg (by decide)]
      unfold handleMenuMode
      rw [if_pos rfl, hm]

/-- C9 witness: the back/quit theorem applied at the terminal step, at the
initial step, and to a quit event during name entry. -/
theorem c9_back_returns_to_start_quit_everywhere_witness :
    Update { NewGeneratorModel with step := 3, success := str "done" } (str "b") emptyFS =
      ({ { NewGeneratorModel with step := 3, success := str "done" } with
           step := 0, cursor := 0, error := [], success := [],
           inputMode := false, inputText := [] }, Cmd.none, emptyFS) ∧
    Update NewGeneratorModel (str "b") emptyFS = (NewGeneratorModel, Cmd.quit, emptyFS) ∧
    Update { NewGeneratorModel with step := 1, inputMode := true } (str "ctrl+c") emptyFS =
      ({ { NewGeneratorModel with step := 1, inputMode := true } with quitting := true },
       Cmd.quit, emptyFS) :=
  ⟨c9_back_returns_to_start_quit_everywhere.1
      { NewGeneratorModel with step := 3, success := str "done" } emptyFS rfl rfl,
   c9_back_returns_to_start_quit_everywhere.2.1 NewGeneratorModel emptyFS rfl rfl,
   c9_back_returns_to_start_quit_everywhere.2.2
      { NewGeneratorModel with step := 1, inputMode := true } emptyFS⟩

/-- C10 amended: during a text-entry step, an input event that is none of the
four control keys is appended to the buffer only when its byte length is
exactly 1; an event carrying more than one byte (for example pasted text) is
not appended wholesale — it is discarded entirely, leaving the model
unchanged. -/
theorem c10_only_single_byte_events_append :
    (∀ (m : GeneratorModel) (msg : Msg) (fs : FS), m.inputMode = true →
      ¬(msg = str "ctrl+c") → ¬(msg = str "esc") → ¬(msg = str "enter") →
      ¬(msg = str "backspace") → msg.length = 1 →
      Update m msg fs = ({ m with inputText := m.inputText ++ msg }, Cmd.none, fs)) ∧
    (∀ (m : GeneratorModel) (msg : Msg) (fs : FS), m.inputMode = true →
      ¬(msg = str "ctrl+c") → ¬(msg = str "esc") → ¬(msg = str "enter") →
      ¬(msg = str "backspace") → ¬(msg.length = 1) →
      Update m msg fs = (m, Cmd.none, fs)) := by
  constructor
  · intro m msg fs h1 h2 h3 h4 h5 h6
    unfold Update
    rw [h1, if_pos rfl]
    unfold handleInputMode
    rw [if_neg h2, if_neg h3, if_neg h4, if_neg h5, if_pos h6, h1]
  · intro m msg fs h1 h2 h3 h4 h5 h6
    unfold Update
    rw [h1, if_pos rfl]
    unfold handleInputMode
    rw [if_neg h2, if_neg h3, if_neg h4, if_neg h5, if_neg h6]

/-- C10 witness: the single-byte-filter theorem applied to the one-byte event
"x" and the two-byte event "ab". -/
theorem c10_only_single_byte_events_append_witness :
    Update { NewGeneratorModel with step := 1, inputMode := true, inputText := str "a" }
        (str "x") emptyFS =
      ({ { NewGeneratorModel with step := 1, inputMode := true, inputText := str "a" } with
           inputText := str "a" ++ str "x" }, Cmd.none, emptyFS) ∧
    Update { NewGeneratorModel with step := 1, inputMode := true, inputText := str "a" }
        (str "ab") emptyFS =
      ({ NewGeneratorModel with step := 1, inputMode := true, inputText := str "a" },
       Cmd.none, emptyFS) :=
  ⟨c10_only_single_byte_events_append.1
      { NewGeneratorModel with step := 1, inputMode := true, inputText := str "a" }
      (str "x") emptyFS rfl (by decide) (by decide) (by decide) (by decide) (by decide),
   c10_only_single_byte_events_append.2
      { NewGeneratorModel with step := 1, inputMode := true, inputText := str "a" }
      (str "ab") emptyFS rfl (by decide) (by decide) (by decide) (by decide) (by decide)⟩
